import Mathlib

/-!
Verification of the labtasker scheduling core (labtasker/server/database.py)
against its natural-language specification.

The document store is shallowly embedded: each collection is a `List` of
documents, a Mongo `update_one` is `updateFirst` (modifying the first match
and reporting whether the document actually changed, as `modified_count`
does), and `find_one_and_update` on an `_id` filter is
`find_one_and_update_by_id`.  Timestamps are UTC instants in milliseconds
(`Int`), timeout fields are seconds (`ℚ`), matching Mongo's
`$divide [$subtract [...], 1000]` arithmetic in `handle_timeouts`.

Interleaving model for concurrency claims: per the spec (section 5), all
coordination happens through single-document atomic store operations, so a
race between two callers is modelled as a sequential interleaving of their
individual store operations.
-/

namespace Labtasker

/-- Task status values (TaskState in labtasker/server/fsm.py, as used by
server/database.py): PENDING, RUNNING, SUCCESS, FAILED, CANCELLED. -/
inductive TaskState
  | pending
  | running
  | success
  | failed
  | cancelled
deriving DecidableEq, Repr

/-- Worker status values (WorkerState): ACTIVE, SUSPENDED, CRASHED. -/
inductive WorkerState
  | active
  | suspended
  | crashed
deriving DecidableEq, Repr

/-- Error kinds corresponding to the HTTPException status codes raised in
server/database.py. -/
inductive Err
  | badRequest
  | unauthorized
  | forbidden
  | notFound
  | conflict
  | internal
deriving DecidableEq, Repr

/-- Task document, fields as written by `create_task` in server/database.py. -/
structure Task where
  id : String
  queue_id : String
  status : TaskState
  task_name : Option String
  created_at : Int
  start_time : Option Int
  last_heartbeat : Option Int
  last_modified : Int
  heartbeat_timeout : Option ℚ
  task_timeout : Option ℚ
  max_retries : Nat
  retries : Nat
  priority : Int
  args : List (String × String)
  cmd : String
  summary : List (String × String)
  worker_id : Option String
deriving DecidableEq, Repr

/-- Worker document, fields as written by `create_worker`. -/
structure Worker where
  id : String
  queue_id : String
  status : WorkerState
  worker_name : Option String
  retries : Nat
  max_retries : Nat
  created_at : Int
  last_modified : Int
deriving DecidableEq, Repr

/-- Queue document, fields as written by `create_queue`.  The password field
holds the output of the opaque hash function. -/
structure Queue where
  id : String
  queue_name : String
  password : String
  created_at : Int
  last_modified : Int
  metadata : List (String × String)
deriving DecidableEq, Repr

/-- Modelled from the spec: `TaskFSM` (labtasker/server/fsm.py is not under
src/; only its callers in server/database.py are).  Pure value
(state, retries, max_retries), spec section 4.1. -/
structure TaskFSM where
  state : TaskState
  retries : Nat
  max_retries : Nat
deriving DecidableEq, Repr

/-- Modelled from the spec: TaskFSM `complete` event, RUNNING → SUCCESS,
retries unchanged; any other source state raises InvalidTransition
(`none`). -/
def TaskFSM.complete : TaskFSM → Option TaskFSM
  | ⟨.running, r, m⟩ => some ⟨.success, r, m⟩
  | _ => none

/-- Modelled from the spec: TaskFSM `cancel` event, RUNNING → CANCELLED. -/
def TaskFSM.cancel : TaskFSM → Option TaskFSM
  | ⟨.running, r, m⟩ => some ⟨.cancelled, r, m⟩
  | _ => none

/-- Modelled from the spec: TaskFSM `fail` event, RUNNING → PENDING with
retries+1 iff retries+1 ≤ max_retries, else RUNNING → FAILED. -/
def TaskFSM.fail : TaskFSM → Option TaskFSM
  | ⟨.running, r, m⟩ =>
    if r + 1 ≤ m then some ⟨.pending, r + 1, m⟩ else some ⟨.failed, r + 1, m⟩
  | _ => none

/-- Modelled from the spec: `TaskFSM.from_db_entry` constructs the FSM from a
stored task document. -/
def TaskFSM.from_db_entry (t : Task) : TaskFSM :=
  ⟨t.status, t.retries, t.max_retries⟩

/-- Modelled from the spec: `WorkerFSM`, spec section 4.2. -/
structure WorkerFSM where
  state : WorkerState
  retries : Nat
  max_retries : Nat
deriving DecidableEq, Repr

/-- Modelled from the spec: WorkerFSM `activate`, SUSPENDED/CRASHED → ACTIVE
with retries reset to 0. -/
def WorkerFSM.activate : WorkerFSM → Option WorkerFSM
  | ⟨.suspended, _, m⟩ => some ⟨.active, 0, m⟩
  | ⟨.crashed, _, m⟩ => some ⟨.active, 0, m⟩
  | _ => none

/-- Modelled from the spec: WorkerFSM `suspend`, ACTIVE → SUSPENDED. -/
def WorkerFSM.suspend : WorkerFSM → Option WorkerFSM
  | ⟨.active, r, m⟩ => some ⟨.suspended, r, m⟩
  | _ => none

/-- Modelled from the spec: WorkerFSM `fail`, ACTIVE → ACTIVE with retries+1
iff retries+1 ≤ max_retries, else ACTIVE → CRASHED. -/
def WorkerFSM.fail : WorkerFSM → Option WorkerFSM
  | ⟨.active, r, m⟩ =>
    if r + 1 ≤ m then some ⟨.active, r + 1, m⟩ else some ⟨.crashed, r + 1, m⟩
  | _ => none

/-- Modelled from the spec: `WorkerFSM.from_db_entry`. -/
def WorkerFSM.from_db_entry (w : Worker) : WorkerFSM :=
  ⟨w.status, w.retries, w.max_retries⟩

/-- Mongo `update_one`: update the first document matching `p` by `f`; the
returned Bool is `modified_count > 0`, i.e. whether a matched document
actually changed. -/
def updateFirst (p : α → Bool) (f : α → α) [DecidableEq α] : List α → Bool × List α
  | [] => (false, [])
  | x :: xs =>
    if p x then (decide (f x ≠ x), f x :: xs)
    else
      let r := updateFirst p f xs
      (r.1, x :: r.2)

/-- Mongo `find_one` on the filter used throughout server/database.py for
tasks: the document with the given `_id` in the given queue. -/
def findTask (ts : List Task) (tid qid : String) : Option Task :=
  ts.find? (fun t => t.id == tid && t.queue_id == qid)

/-- A Mongo `$set {"<k>": v}` on one key of a free-form sub-document
(summary/metadata), overwriting the key if present. -/
def setKey (k v : String) : List (String × String) → List (String × String)
  | [] => [(k, v)]
  | (k2, v2) :: rest => if k2 == k then (k, v) :: rest else (k2, v2) :: setKey k v rest

/-- Python truthiness of an optional numeric value (`if task_timeout:` in
fetch_task): None and 0 are falsy. -/
def truthy : Option ℚ → Bool
  | none => false
  | some x => decide (x ≠ 0)

/-- Python truthiness of an optional string (`if new_queue_name ...`): None
and the empty string are falsy. -/
def strTruthy : Option String → Bool
  | none => false
  | some s => decide (s ≠ "")

/-- Heartbeat-timeout disjunct of the `handle_timeouts` Mongo query:
`last_heartbeat ≠ null`, `heartbeat_timeout ≠ null`, and
`(now − last_heartbeat) / 1000 > heartbeat_timeout` (`$subtract` of dates is
milliseconds, `$divide` is exact division). -/
def heartbeatTimedOut (now : Int) (t : Task) : Bool :=
  match t.last_heartbeat, t.heartbeat_timeout with
  | some lh, some hbt => decide (((now : ℚ) - (lh : ℚ)) / 1000 > hbt)
  | _, _ => false

/-- Task-execution-timeout disjunct of the `handle_timeouts` Mongo query:
`task_timeout ≠ null`, `start_time ≠ null`, and
`(now − start_time) / 1000 > task_timeout`. -/
def executionTimedOut (now : Int) (t : Task) : Bool :=
  match t.task_timeout, t.start_time with
  | some tt, some st => decide (((now : ℚ) - (st : ℚ)) / 1000 > tt)
  | _, _ => false

/-- The full `handle_timeouts` selection query: status RUNNING and either
timeout disjunct. -/
def timedOutQuery (now : Int) (t : Task) : Bool :=
  t.status == .running && (heartbeatTimedOut now t || executionTimedOut now t)

/-- The tasks `handle_timeouts` finds for processing:
`self._tasks.find(query)`. -/
def sweepSelected (now : Int) (ts : List Task) : List Task :=
  ts.filter (timedOutQuery now)

/-- `_report_worker_status`: look the worker up by `{_id, queue_id}`
(NotFound if absent), run the WorkerFSM event named by `report_status`
(unknown names and invalid transitions surface as BadRequest), then write
`{status, retries, last_modified}` with `update_one` on `{_id}`. -/
def reportWorkerStatusTx (now : Int) (qid wid : String) (report_status : String)
    (ws : List Worker) : Except Err (Bool × List Worker) :=
  match ws.find? (fun w => w.id == wid && w.queue_id == qid) with
  | none => .error .notFound
  | some w =>
    let fsm0 := WorkerFSM.from_db_entry w
    let fsmRes : Option WorkerFSM :=
      if report_status == "active" then fsm0.activate
      else if report_status == "suspended" then fsm0.suspend
      else if report_status == "failed" then fsm0.fail
      else none
    match fsmRes with
    | none => .error .badRequest
    | some fsm =>
      let r := updateFirst (fun x => x.id == wid)
        (fun x => { x with status := fsm.state, retries := fsm.retries, last_modified := now }) ws
      .ok (r.1, r.2)

/-- The `$set` document the sweeper writes on a timed-out task: FSM outcome,
`worker_id: null`, `last_modified: now`, and
`summary.labtasker_error`. -/
def sweepWrite (now : Int) (fsm : TaskFSM) (t : Task) : Task :=
  { t with
    status := fsm.state
    retries := fsm.retries
    last_modified := now
    worker_id := none
    summary := setKey "labtasker_error" "Either heartbeat or task execution timed out" t.summary }

/-- The body of one iteration of the `handle_timeouts` per-task loop (inside
its `try`): build the FSM, `fail` it, fail the worker if one is recorded,
then `update_one` the task; returns the `modified_count > 0` flag together
with the updated collections, or the error that the `except` clause will
swallow. -/
def sweepTaskStep (now : Int) (t : Task) (ts : List Task) (ws : List Worker) :
    Except Err (Bool × List Task × List Worker) :=
  match (TaskFSM.from_db_entry t).fail with
  | none => .error .badRequest
  | some fsm =>
    match t.worker_id with
    | some wid =>
      match reportWorkerStatusTx now t.queue_id wid "failed" ws with
      | .error e => .error e
      | .ok (_, ws2) =>
        let r := updateFirst (fun x => x.id == t.id) (sweepWrite now fsm) ts
        .ok (r.1, r.2, ws2)
    | none =>
      let r := updateFirst (fun x => x.id == t.id) (sweepWrite now fsm) ts
      .ok (r.1, r.2, ws)

/-- The `handle_timeouts` loop exactly as written: `transitioned_tasks = []`,
iterate over the found tasks, `try` the per-task step, on error continue,
append the task id when `modified_count > 0`. -/
def sweepLoopAcc (now : Int) :
    List Task → List Task → List Worker → List String → List String × List Task × List Worker
  | [], ts, ws, acc => (acc, ts, ws)
  | t :: rest, ts, ws, acc =>
    match sweepTaskStep now t ts ws with
    | .error _ => sweepLoopAcc now rest ts ws acc
    | .ok (b, ts2, ws2) => sweepLoopAcc now rest ts2 ws2 (if b then acc ++ [t.id] else acc)

/-- `handle_timeouts`: select the timed-out RUNNING tasks and run the loop;
returns (transitioned task ids, tasks, workers). -/
def handle_timeouts (now : Int) (ts : List Task) (ws : List Worker) :
    List String × List Task × List Worker :=
  sweepLoopAcc now (sweepSelected now ts) ts ws []

/-- Direct-recursion characterisation of the sweep used to state claim C7:
the ids of exactly those tasks whose `update_one` applied, skipping tasks
whose processing raised. -/
def sweepAppliedIds (now : Int) : List Task → List Task → List Worker → List String
  | [], _, _ => []
  | t :: rest, ts, ws =>
    match sweepTaskStep now t ts ws with
    | .error _ => sweepAppliedIds now rest ts ws
    | .ok (b, ts2, ws2) => (if b then [t.id] else []) ++ sweepAppliedIds now rest ts2 ws2

/-- The `$set` document of the atomic update in `fetch_task` step 6: status
RUNNING, `start_time = now`, `last_heartbeat = now if start_heartbeat else
None`, `worker_id`, `last_modified = now`, and `task_timeout` /
`heartbeat_timeout` only when truthy (`if task_timeout:`). -/
def fetchUpdate (now : Int) (wid : Option String) (start_heartbeat : Bool)
    (task_timeout heartbeat_timeout : Option ℚ) (t : Task) : Task :=
  let t1 := { t with
    status := TaskState.running
    start_time := some now
    last_heartbeat := if start_heartbeat then some now else none
    last_modified := now
    worker_id := wid }
  let t2 := if truthy task_timeout then { t1 with task_timeout := task_timeout } else t1
  if truthy heartbeat_timeout then { t2 with heartbeat_timeout := heartbeat_timeout } else t2

/-- Mongo `find_one_and_update` with the exact filter used in `fetch_task`
step 6: `{"_id": task["_id"]}` — the id alone, no status condition.  Returns
the post-update document (ReturnDocument.AFTER) when a document with that id
exists, else `none` with the list unchanged. -/
def find_one_and_update_by_id (tid : String) (f : Task → Task) :
    List Task → Option Task × List Task
  | [] => (none, [])
  | t :: ts =>
    if t.id == tid then (some (f t), f t :: ts)
    else
      let r := find_one_and_update_by_id tid f ts
      (r.1, t :: r.2)

/-- The lexicographic candidate order of `fetch_task`:
`sort=[("priority", -1), ("last_modified", 1), ("created_at", 1)]`. -/
def taskBefore (a b : Task) : Bool :=
  if a.priority ≠ b.priority then decide (b.priority < a.priority)
  else if a.last_modified ≠ b.last_modified then decide (a.last_modified < b.last_modified)
  else decide (a.created_at ≤ b.created_at)

/-- The candidate order as a relation, for sortedness statements. -/
def fetchRel (a b : Task) : Prop := taskBefore a b = true

instance : DecidableRel fetchRel := fun a b =>
  inferInstanceAs (Decidable (taskBefore a b = true))

/-- The candidate list of `fetch_task` in the no-extra-filter instantiation
(`required_fields = None`, `extra_filter = None`, so the sanitized filter
contributes nothing beyond `{queue_id, status: PENDING}`): the PENDING tasks
of the queue in the documented sort order. -/
def pendingCandidates (qid : String) (ts : List Task) : List Task :=
  List.insertionSort fetchRel
    (ts.filter (fun t => t.queue_id == qid && t.status == TaskState.pending))

/-- The candidate loop of `fetch_task`: for each candidate in order, attempt
the atomic update; return the updated document if it applied, otherwise
continue with the next candidate; `None` when no candidate remains. -/
def fetchLoop (f : Task → Task) : List Task → List Task → Option Task × List Task
  | [], ts => (none, ts)
  | c :: cs, ts =>
    match find_one_and_update_by_id c.id f ts with
    | (some u, ts2) => (some u, ts2)
    | (none, _) => fetchLoop f cs ts

/-- `fetch_task` steps 3–8 in the no-extra-filter instantiation: build the
candidate list and run the loop with the step-6 update. -/
def fetch_task_core (now : Int) (qid : String) (wid : Option String)
    (start_heartbeat : Bool) (task_timeout heartbeat_timeout : Option ℚ)
    (ts : List Task) : Option Task × List Task :=
  fetchLoop (fetchUpdate now wid start_heartbeat task_timeout heartbeat_timeout)
    (pendingCandidates qid ts) ts

/-- The validation prelude of `fetch_task` in source order:
`task_timeout = parse_timeout(eta_max) if eta_max else None` (parse_timeout
lives in labtasker/utils.py, not under src/; we take its parsed value in
seconds as the input), then BadRequest when `start_heartbeat` is false and
`task_timeout` is falsy, and only then — inside the transaction — the worker
lookup: NotFound if absent from the queue, Forbidden if not ACTIVE. -/
def fetch_task_checks (qid : String) (wid : Option String) (etaParsed : Option ℚ)
    (start_heartbeat : Bool) (ws : List Worker) : Except Err Unit :=
  if ¬ start_heartbeat ∧ ¬ truthy etaParsed then .error .badRequest
  else
    match wid with
    | none => .ok ()
    | some w =>
      match ws.find? (fun x => x.id == w && x.queue_id == qid) with
      | none => .error .notFound
      | some worker =>
        if worker.status ≠ WorkerState.active then .error .forbidden else .ok ()

/-- The `$set` document of `_report_task_status`: FSM outcome, `worker_id:
null`, `last_modified`, and the sanitized `summary.<key>` partial update. -/
def reportWrite (now : Int) (fsm : TaskFSM) (summary_update : List (String × String))
    (t : Task) : Task :=
  { t with
    status := fsm.state
    retries := fsm.retries
    last_modified := now
    worker_id := none
    summary := summary_update.foldl (fun m kv => setKey kv.1 kv.2 m) t.summary }

/-- `_report_task_status`: run the TaskFSM event named by `report_status`
(unknown names and invalid transitions surface as BadRequest), on "failed"
with a recorded worker recursively fail that worker, then `update_one` the
task with `reportWrite`.  Errors are returned with the collections as they
stood when the error was raised. -/
def report_task_status_inner (now : Int) (qid : String) (t : Task)
    (report_status : String) (summary_update : List (String × String))
    (ts : List Task) (ws : List Worker) :
    Except Err Bool × List Task × List Worker :=
  let fsm0 := TaskFSM.from_db_entry t
  let fsmRes : Option TaskFSM :=
    if report_status == "success" then fsm0.complete
    else if report_status == "failed" then fsm0.fail
    else if report_status == "cancelled" then fsm0.cancel
    else none
  match fsmRes with
  | none => (.error .badRequest, ts, ws)
  | some fsm =>
    let wsRes : Except Err (List Worker) :=
      match report_status == "failed", t.worker_id with
      | true, some wid =>
        match reportWorkerStatusTx now qid wid "failed" ws with
        | .error e => .error e
        | .ok (_, ws2) => .ok ws2
      | _, _ => .ok ws
    match wsRes with
    | .error e => (.error e, ts, ws)
    | .ok ws2 =>
      let r := updateFirst (fun x => x.id == t.id) (reportWrite now fsm summary_update) ts
      (.ok (r.1 = true), r.2, ws2)

/-- `worker_report_task_status`: find the task by `{_id, queue_id}`
(NotFound if absent), reject with Conflict when the stored `worker_id`
differs from the reporting worker, then delegate to the shared report
path. -/
def worker_report_task_status (now : Int) (qid tid wid : String)
    (report_status : String) (summary_update : List (String × String))
    (ts : List Task) (ws : List Worker) :
    Except Err Bool × List Task × List Worker :=
  match findTask ts tid qid with
  | none => (.error .notFound, ts, ws)
  | some t =>
    if t.worker_id ≠ some wid then (.error .conflict, ts, ws)
    else report_task_status_inner now qid t report_status summary_update ts ws

/-- `refresh_task_heartbeat`: a single `update_one` on `{_id, queue_id}`
setting only `last_heartbeat = now`; no state is checked and no error can be
raised; returns `modified_count > 0`. -/
def refresh_task_heartbeat (now : Int) (qid tid : String) (ts : List Task) :
    Except Err (Bool × List Task) :=
  let r := updateFirst (fun t => t.id == tid && t.queue_id == qid)
    (fun t => { t with last_heartbeat := some now }) ts
  .ok (r.1, r.2)

/-- The `$set` document of `cancel_task`: status CANCELLED and
`last_modified` only (no FSM, `worker_id` untouched). -/
def cancelWrite (now : Int) (t : Task) : Task :=
  { t with status := TaskState.cancelled, last_modified := now }

/-- `cancel_task`: `update_one` on `{_id, queue_id}` with `cancelWrite`. -/
def cancel_task (now : Int) (qid tid : String) (ts : List Task) : Bool × List Task :=
  updateFirst (fun t => t.id == tid && t.queue_id == qid) (cancelWrite now) ts

/-- The `$set` document of `update_task` in the `task_setting_update = None`
instantiation: `last_modified`, and on `reset_pending` also
`status = PENDING, retries = 0` (`worker_id` untouched). -/
def updateTaskWrite (now : Int) (reset_pending : Bool) (t : Task) : Task :=
  if reset_pending then
    { t with last_modified := now, status := TaskState.pending, retries := 0 }
  else
    { t with last_modified := now }

/-- `update_task` (with `task_setting_update = None`): `update_one` on
`{_id, queue_id}`; returns `modified_count > 0`. -/
def update_task (now : Int) (qid tid : String) (reset_pending : Bool)
    (ts : List Task) : Bool × List Task :=
  updateFirst (fun t => t.id == tid && t.queue_id == qid)
    (updateTaskWrite now reset_pending) ts

/-- The per-task `$set` of the `delete_worker` cascade (`update_many` over
`{queue_id, worker_id}`): clear `worker_id`, bump `last_modified`, status
untouched. -/
def clearWorkerWrite (now : Int) (t : Task) : Task :=
  { t with worker_id := none, last_modified := now }

/-- The cascade of `delete_worker`: every task of the queue pointing at the
deleted worker gets `clearWorkerWrite`. -/
def delete_worker_cascade (now : Int) (qid wid : String) (ts : List Task) : List Task :=
  ts.map (fun t =>
    if t.queue_id == qid && t.worker_id == some wid then clearWorkerWrite now t else t)

/-- The task document inserted by `create_task`: status PENDING, retries 0,
`start_time`, `last_heartbeat` and `worker_id` null. -/
def createdTask (id qid : String) (task_name : Option String)
    (args : List (String × String)) (cmd : String)
    (heartbeat_timeout task_timeout : Option ℚ) (max_retries : Nat)
    (priority : Int) (now : Int) : Task :=
  { id := id
    queue_id := qid
    status := TaskState.pending
    task_name := task_name
    created_at := now
    start_time := none
    last_heartbeat := none
    last_modified := now
    heartbeat_timeout := heartbeat_timeout
    task_timeout := task_timeout
    max_retries := max_retries
    retries := 0
    priority := priority
    args := args
    cmd := cmd
    summary := []
    worker_id := none }

/-- `_get_queue_by_name` with `raise_exception=False`: a global (not
queue-scoped) `find_one` on `{queue_name}`. -/
def get_queue_by_name (name : String) (qs : List Queue) : Option Queue :=
  qs.find? (fun q => q.queue_name == name)

/-- `update_queue`: reject with BadRequest when the (truthy) new name is
found by the global name lookup, else `update_one` on `{_id}` writing
`last_modified`, the new name / password hash when truthy, and the
`metadata.<key>` partial update.  The password hash function is opaque
(spec section 1) and passed as a parameter. -/
def update_queue (now : Int) (hash : String → String) (qid : String)
    (new_queue_name new_password : Option String)
    (metadata_update : List (String × String)) (qs : List Queue) :
    Except Err (Nat × List Queue) :=
  if strTruthy new_queue_name && (get_queue_by_name (new_queue_name.getD "") qs).isSome then
    .error .badRequest
  else
    let f : Queue → Queue := fun q =>
      let q1 := { q with last_modified := now }
      let q2 :=
        if strTruthy new_queue_name then { q1 with queue_name := new_queue_name.getD "" }
        else q1
      let q3 :=
        if strTruthy new_password then { q2 with password := hash (new_password.getD "") }
        else q2
      { q3 with metadata := metadata_update.foldl (fun m kv => setKey kv.1 kv.2 m) q3.metadata }
    let r := updateFirst (fun q => q.id == qid) f qs
    .ok ((if r.1 then 1 else 0), r.2)

/-- Spec property P3: a task that is not RUNNING has a null `worker_id`. -/
def WorkerIdInv (t : Task) : Prop :=
  t.status ≠ TaskState.running → t.worker_id = none

instance (t : Task) : Decidable (WorkerIdInv t) :=
  inferInstanceAs (Decidable (t.status ≠ TaskState.running → t.worker_id = none))

/-- Status of the task with a given id in a collection (for stating the
interleaving counterexample). -/
def statusOf (ts : List Task) (tid : String) : Option TaskState :=
  (ts.find? (fun t => t.id == tid)).map Task.status

/-- Sample PENDING task of priority 10, created first (scenario S1's T1). -/
def task1 : Task :=
  createdTask "t1" "q1" none [("n", "1")] "" none none 3 10 0

/-- Sample PENDING task of priority 20, created second (scenario S1's T2). -/
def task2 : Task :=
  createdTask "t2" "q1" none [("n", "2")] "" none none 3 20 1

/-- `task1` after being fetched by worker w1: RUNNING with `worker_id` set. -/
def runningTask1 : Task :=
  fetchUpdate 5 (some "w1") true none none task1

/-- Sample ACTIVE worker. -/
def worker1 : Worker :=
  { id := "w1"
    queue_id := "q1"
    status := WorkerState.active
    worker_name := none
    retries := 0
    max_retries := 3
    created_at := 0
    last_modified := 0 }

/-- Sample SUSPENDED worker. -/
def worker2 : Worker :=
  { worker1 with id := "w2", status := WorkerState.suspended }

/-- Sample queue. -/
def queue1 : Queue :=
  { id := "q1"
    queue_name := "main"
    password := "h"
    created_at := 0
    last_modified := 0
    metadata := [] }

instance : IsTotal Task fetchRel :=
  ⟨by
    have key : ∀ a b : Task, taskBefore a b = true ↔
        (b.priority < a.priority ∨ (a.priority = b.priority ∧
          (a.last_modified < b.last_modified ∨ (a.last_modified = b.last_modified ∧
            a.created_at ≤ b.created_at)))) := by
      intro a b
      unfold taskBefore
      by_cases h1 : a.priority = b.priority <;> by_cases h2 : a.last_modified = b.last_modified <;>
        simp [h1, h2, ne_comm]
    intro a b
    unfold fetchRel
    rw [key a b, key b a]
    omega⟩

instance : IsTrans Task fetchRel :=
  ⟨by
    have key : ∀ a b : Task, taskBefore a b = true ↔
        (b.priority < a.priority ∨ (a.priority = b.priority ∧
          (a.last_modified < b.last_modified ∨ (a.last_modified = b.last_modified ∧
            a.created_at ≤ b.created_at)))) := by
      intro a b
      unfold taskBefore
      by_cases h1 : a.priority = b.priority <;> by_cases h2 : a.last_modified = b.last_modified <;>
        simp [h1, h2, ne_comm]
    intro a b c hab hbc
    unfold fetchRel at hab hbc ⊢
    rw [key] at hab hbc ⊢
    omega⟩

/-- A matched `update_one` reports a modification exactly when the resulting
collection differs from the original one. -/
theorem updateFirst_modified_iff [DecidableEq α] (p : α → Bool) (f : α → α) (xs : List α) :
    (updateFirst p f xs).1 = true ↔ (updateFirst p f xs).2 ≠ xs := by
  induction xs with
  | nil => simp [updateFirst]
  | cons x xs ih =>
    by_cases h : p x
    · simp [updateFirst, h]
    · simp [updateFirst, h, ih]

/-- After an `update_one`, every document is either untouched or equal to the
update applied to its old value. -/
theorem updateFirst_forall2 [DecidableEq α] (p : α → Bool) (f : α → α) (xs : List α) :
    List.Forall₂ (fun a b => b = a ∨ b = f a) xs (updateFirst p f xs).2 := by
  induction xs with
  | nil => exact List.Forall₂.nil
  | cons x xs ih =>
    by_cases h : p x
    · simp only [updateFirst, h, if_pos]
      exact List.Forall₂.cons (Or.inr rfl) (List.forall₂_same.mpr fun a _ => Or.inl rfl)
    · simp only [updateFirst, h, if_neg, Bool.false_eq_true, not_false_iff]
      exact List.Forall₂.cons (Or.inl rfl) ih

/-- The id-only `find_one_and_update` returns a document exactly when a task
with that id is present, whatever its status. -/
theorem find_one_and_update_isSome_iff (tid : String) (f : Task → Task) (ts : List Task) :
    ((find_one_and_update_by_id tid f ts).1.isSome = true) ↔ ∃ t ∈ ts, t.id = tid := by
  induction ts with
  | nil => simp [find_one_and_update_by_id]
  | cons t ts ih =>
    by_cases h : t.id = tid
    · simp [find_one_and_update_by_id, h]
    · simp [find_one_and_update_by_id, h, ih]

/-- The accumulator form of the sweep loop produces the directly-recursive
list of applied task ids. -/
theorem sweepLoopAcc_fst (now : Int) (q : List Task) :
    ∀ (ts : List Task) (ws : List Worker) (acc : List String),
      (sweepLoopAcc now q ts ws acc).1 = acc ++ sweepAppliedIds now q ts ws := by
  induction q with
  | nil => intro ts ws acc; simp [sweepLoopAcc, sweepAppliedIds]
  | cons t rest ih =>
    intro ts ws acc
    cases h : sweepTaskStep now t ts ws with
    | error e => simp [sweepLoopAcc, sweepAppliedIds, h, ih]
    | ok r =>
      obtain ⟨b, ts2, ws2⟩ := r
      cases b <;> simp [sweepLoopAcc, sweepAppliedIds, h, ih]

/-- The `handle_timeouts` query matches exactly the spec's predicate. -/
theorem timedOutQuery_iff (now : Int) (t : Task) :
    timedOutQuery now t = true ↔
      (t.status = TaskState.running ∧
        ((∃ lh hbt, t.last_heartbeat = some lh ∧ t.heartbeat_timeout = some hbt ∧
            ((now : ℚ) - (lh : ℚ)) / 1000 > hbt) ∨
         (∃ tt st, t.task_timeout = some tt ∧ t.start_time = some st ∧
            ((now : ℚ) - (st : ℚ)) / 1000 > tt))) := by
  unfold timedOutQuery heartbeatTimedOut executionTimedOut
  cases hlh : t.last_heartbeat <;> cases hhbt : t.heartbeat_timeout <;>
    cases htt : t.task_timeout <;> cases hst : t.start_time <;>
      simp [hlh, hhbt, htt, hst]

/-- The fetch candidate order is the lexicographic (priority DESC,
last_modified ASC, created_at ASC) order. -/
theorem taskBefore_iff (a b : Task) :
    taskBefore a b = true ↔
      (b.priority < a.priority ∨ (a.priority = b.priority ∧
        (a.last_modified < b.last_modified ∨ (a.last_modified = b.last_modified ∧
          a.created_at ≤ b.created_at)))) := by
  unfold taskBefore
  by_cases h1 : a.priority = b.priority <;> by_cases h2 : a.last_modified = b.last_modified <;>
    simp [h1, h2, ne_comm]

/-- Claim C3: `handle_timeouts` selects for transition exactly the tasks that
are RUNNING and satisfy (last_heartbeat set ∧ heartbeat_timeout set ∧
now − last_heartbeat > heartbeat_timeout) or (task_timeout set ∧ start_time
set ∧ now − start_time > task_timeout); a task in any other status, or a
RUNNING task satisfying neither disjunct, is never selected. -/
theorem handle_timeouts_selects_exactly_timed_out_running
    (now : Int) (ts : List Task) (t : Task) :
    t ∈ sweepSelected now ts ↔
      (t ∈ ts ∧ t.status = TaskState.running ∧
        ((∃ lh hbt, t.last_heartbeat = some lh ∧ t.heartbeat_timeout = some hbt ∧
            ((now : ℚ) - (lh : ℚ)) / 1000 > hbt) ∨
         (∃ tt st, t.task_timeout = some tt ∧ t.start_time = some st ∧
            ((now : ℚ) - (st : ℚ)) / 1000 > tt))) := by
  rw [sweepSelected, List.mem_filter, timedOutQuery_iff]

/-- Claim C4: `worker_report_task_status` raises NotFound when no task with
the given id exists in the queue and Conflict when the stored worker_id
differs from the reporting one; in either error case the collections are
returned unchanged (no write precedes the checks). -/
theorem worker_report_task_status_error_cases (now : Int) (qid tid wid rs : String)
    (su : List (String × String)) (ts : List Task) (ws : List Worker) :
    (findTask ts tid qid = none →
      worker_report_task_status now qid tid wid rs su ts ws = (.error .notFound, ts, ws)) ∧
    (∀ t, findTask ts tid qid = some t → t.worker_id ≠ some wid →
      worker_report_task_status now qid tid wid rs su ts ws = (.error .conflict, ts, ws)) := by
  constructor
  · intro h
    simp [worker_report_task_status, h]
  · intro t ht hw
    simp [worker_report_task_status, ht, hw]

theorem worker_report_task_status_error_cases_witness :
    worker_report_task_status 7 "q9" "t9" "w9" "success" [] [] [] =
      (.error .notFound, [], []) ∧
    worker_report_task_status 7 "q1" "t1" "w9" "success" [] [task1] [] =
      (.error .conflict, [task1], []) :=
  ⟨(worker_report_task_status_error_cases 7 "q9" "t9" "w9" "success" [] [] []).1 rfl,
   (worker_report_task_status_error_cases 7 "q1" "t1" "w9" "success" [] [task1] []).2
     task1 (by decide) (by decide)⟩

/-- Claim C8: `refresh_task_heartbeat` never raises (whatever the task's
status), every document in the resulting collection is either untouched or
differs from its old value in the `last_heartbeat` field alone, and the
returned Bool is exactly whether a document was modified. -/
theorem refresh_task_heartbeat_frame (now : Int) (qid tid : String) (ts : List Task) :
    refresh_task_heartbeat now qid tid ts =
      .ok (updateFirst (fun t => t.id == tid && t.queue_id == qid)
        (fun t => { t with last_heartbeat := some now }) ts) ∧
    List.Forall₂ (fun t t2 => t2 = t ∨ t2 = { t with last_heartbeat := some now }) ts
      (updateFirst (fun t => t.id == tid && t.queue_id == qid)
        (fun t => { t with last_heartbeat := some now }) ts).2 ∧
    ((updateFirst (fun t => t.id == tid && t.queue_id == qid)
        (fun t => { t with last_heartbeat := some now }) ts).1 = true ↔
      (updateFirst (fun t => t.id == tid && t.queue_id == qid)
        (fun t => { t with last_heartbeat := some now }) ts).2 ≠ ts) :=
  ⟨rfl, updateFirst_forall2 _ _ ts, updateFirst_modified_iff _ _ ts⟩

/-- Claim C5: `fetch_task` examines PENDING candidates of the queue ordered
by (priority DESC, last_modified ASC, created_at ASC) and returns the first
whose atomic update applies; with two PENDING tasks of priorities 10 and 20
the first fetch returns the priority-20 task and the next fetch the
priority-10 one. -/
theorem fetch_task_priority_order_and_scenario :
    (∀ (qid : String) (ts : List Task), List.Sorted fetchRel (pendingCandidates qid ts)) ∧
    (∀ (qid : String) (ts : List Task) (t : Task),
      t ∈ pendingCandidates qid ts ↔
        t ∈ ts ∧ t.queue_id = qid ∧ t.status = TaskState.pending) ∧
    (∀ a b : Task, fetchRel a b ↔
      (b.priority < a.priority ∨ (a.priority = b.priority ∧
        (a.last_modified < b.last_modified ∨ (a.last_modified = b.last_modified ∧
          a.created_at ≤ b.created_at))))) ∧
    (∀ (f : Task → Task) (c : Task) (cs ts ts2 : List Task) (u : Task),
      find_one_and_update_by_id c.id f ts = (some u, ts2) →
        fetchLoop f (c :: cs) ts = (some u, ts2)) ∧
    ((fetch_task_core 5 "q1" (some "w1") true none none [task1, task2]).1.map Task.id =
      some "t2") ∧
    ((fetch_task_core 6 "q1" (some "w1") true none none
        (fetch_task_core 5 "q1" (some "w1") true none none [task1, task2]).2).1.map Task.id =
      some "t1") := by
  refine ⟨fun qid ts => List.sorted_insertionSort fetchRel _, ?_, ?_, ?_, by decide, by decide⟩
  · intro qid ts t
    simp [pendingCandidates, List.mem_filter, and_assoc]
  · intro a b
    exact taskBefore_iff a b
  · intro f c cs ts ts2 u hr
    simp [fetchLoop, hr]

theorem fetch_task_priority_order_and_scenario_witness :
    fetchLoop (fetchUpdate 5 (some "w1") true none none) [task1]
        [task1] =
      (some (fetchUpdate 5 (some "w1") true none none task1),
        [fetchUpdate 5 (some "w1") true none none task1]) :=
  fetch_task_priority_order_and_scenario.2.2.2.1
    (fetchUpdate 5 (some "w1") true none none) task1 [] [task1]
    [fetchUpdate 5 (some "w1") true none none task1]
    (fetchUpdate 5 (some "w1") true none none task1) (by decide)

/-- Claim C1 (counterexample): the step-6 atomic update does not require the
task to still be PENDING.  Caller A fetches the only pending task of the
queue; caller B, whose candidate read happened before A's update, then runs
the same atomic update on the now-RUNNING task — and it applies, returning
the same task to B with B's worker id, instead of B moving on to the next
candidate. -/
theorem fetch_update_applies_to_running_task_cex :
    statusOf (fetch_task_core 5 "q1" (some "wA") true none none [task1]).2 "t1" =
      some TaskState.running ∧
    (fetchLoop (fetchUpdate 6 (some "wB") true none none) (pendingCandidates "q1" [task1])
        (fetch_task_core 5 "q1" (some "wA") true none none [task1]).2).1.map
      (fun u => (u.id, u.worker_id, u.status)) =
      some ("t1", some "wB", TaskState.running) := by
  decide

/-- Claim C1 (amended): the step-6 atomic update of fetch_task filters on the
candidate's `_id` alone, so it applies exactly when a task with that id
exists, whatever its current status; the loop continues to the next
candidate only when the update returned no document, and returns the result
of the first candidate whose update applied. -/
theorem fetch_atomic_update_by_id_only :
    (∀ (tid : String) (f : Task → Task) (ts : List Task),
      ((find_one_and_update_by_id tid f ts).1.isSome = true ↔ ∃ t ∈ ts, t.id = tid)) ∧
    (∀ (f : Task → Task) (c : Task) (cs ts : List Task),
      (find_one_and_update_by_id c.id f ts).1 = none →
        fetchLoop f (c :: cs) ts = fetchLoop f cs ts) := by
  refine ⟨fun tid f ts => find_one_and_update_isSome_iff tid f ts, ?_⟩
  intro f c cs ts h
  cases hr : find_one_and_update_by_id c.id f ts with
  | mk o ts2 =>
    rw [hr] at h
    simp only at h
    subst h
    simp [fetchLoop, hr]

theorem fetch_atomic_update_by_id_only_witness :
    fetchLoop (fetchUpdate 6 (some "wB") true none none) [task1] [] =
      fetchLoop (fetchUpdate 6 (some "wB") true none none) [] [] :=
  fetch_atomic_update_by_id_only.2 (fetchUpdate 6 (some "wB") true none none) task1 [] [] rfl

/-- Claim C2 (counterexample): `cancel_task` writes only status and
last_modified, so cancelling a RUNNING task with a worker leaves a non-null
worker_id on a CANCELLED task, violating P3. -/
theorem cancel_task_breaks_worker_id_invariant_cex :
    WorkerIdInv runningTask1 ∧
    (cancelWrite 6 runningTask1).status = TaskState.cancelled ∧
    (cancelWrite 6 runningTask1).worker_id = some "w1" ∧
    ¬ WorkerIdInv (cancelWrite 6 runningTask1) ∧
    (cancel_task 6 "q1" "t1" [runningTask1]).2 = [cancelWrite 6 runningTask1] := by
  decide

/-- Claim C2 (amended): the invariant "worker_id is null outside RUNNING" is
established by create_task and preserved by the fetch update, the report
write, the sweeper write, the delete_worker cascade and the heartbeat write,
and worker_id is set to a non-null value only by the fetch transition — but
cancel_task and update_task leave worker_id unchanged while changing status,
so they can move a task out of RUNNING with its worker_id still set. -/
theorem worker_id_invariant_amended (now : Int) :
    (∀ (i q : String) (tn : Option String) (ar : List (String × String)) (c : String)
        (hb tt : Option ℚ) (mr : Nat) (pr ca : Int),
      WorkerIdInv (createdTask i q tn ar c hb tt mr pr ca)) ∧
    (∀ (wid : Option String) (sh : Bool) (tt hb : Option ℚ) (t : Task),
      WorkerIdInv (fetchUpdate now wid sh tt hb t)) ∧
    (∀ (fsm : TaskFSM) (su : List (String × String)) (t : Task),
      WorkerIdInv (reportWrite now fsm su t) ∧ (reportWrite now fsm su t).worker_id = none) ∧
    (∀ (fsm : TaskFSM) (t : Task),
      WorkerIdInv (sweepWrite now fsm t) ∧ (sweepWrite now fsm t).worker_id = none) ∧
    (∀ t : Task,
      WorkerIdInv (clearWorkerWrite now t) ∧ (clearWorkerWrite now t).worker_id = none) ∧
    (∀ t : Task, WorkerIdInv t → WorkerIdInv { t with last_heartbeat := some now }) ∧
    (∀ t : Task, (cancelWrite now t).worker_id = t.worker_id) ∧
    (∀ (rp : Bool) (t : Task), (updateTaskWrite now rp t).worker_id = t.worker_id) := by
  refine ⟨fun i q tn ar c hb tt mr pr ca => fun _ => rfl, ?_,
    fun fsm su t => ⟨fun _ => rfl, rfl⟩, fun fsm t => ⟨fun _ => rfl, rfl⟩,
    fun t => ⟨fun _ => rfl, rfl⟩, fun t ht hne => ht hne, fun t => rfl, ?_⟩
  · intro wid sh tt hb t hne
    exfalso
    apply hne
    unfold fetchUpdate
    by_cases h1 : truthy tt <;> by_cases h2 : truthy hb <;> simp [h1, h2]
  · intro rp t
    cases rp <;> rfl

theorem worker_id_invariant_amended_witness :
    WorkerIdInv task1 ∧ WorkerIdInv { task1 with last_heartbeat := some 4 } :=
  ⟨by decide, (worker_id_invariant_amended 4).2.2.2.2.2.1 task1 (by decide)⟩

/-- Claim C6 (counterexample): with a worker id that is absent from the
queue, start_heartbeat false and no eta_max, fetch_task fails with
BadRequest — the eta_max requirement is checked before the worker lookup,
not after it as the claim states. -/
theorem fetch_eta_max_checked_before_worker_cex :
    fetch_task_checks "q1" (some "w1") none false [] = .error .badRequest ∧
    fetch_task_checks "q1" (some "w1") none false [] ≠ .error .notFound := by
  refine ⟨rfl, fun h => ?_⟩
  rw [show fetch_task_checks "q1" (some "w1") none false [] = .error .badRequest from rfl] at h
  simp at h

/-- Claim C6 (amended): `fetch_task` validates the eta_max requirement before
the worker: a call with start_heartbeat false and falsy eta_max fails with
BadRequest whatever the worker argument; when that requirement passes, a
worker id absent from the queue gives NotFound and a non-ACTIVE worker gives
Forbidden. -/
theorem fetch_validation_order_amended (qid : String) (wid : Option String)
    (eta : Option ℚ) (sh : Bool) (ws : List Worker) :
    (sh = false → truthy eta = false →
      fetch_task_checks qid wid eta sh ws = .error .badRequest) ∧
    (∀ w, (sh = true ∨ truthy eta = true) → wid = some w →
      ws.find? (fun x => x.id == w && x.queue_id == qid) = none →
      fetch_task_checks qid wid eta sh ws = .error .notFound) ∧
    (∀ w worker, (sh = true ∨ truthy eta = true) → wid = some w →
      ws.find? (fun x => x.id == w && x.queue_id == qid) = some worker →
      worker.status ≠ WorkerState.active →
      fetch_task_checks qid wid eta sh ws = .error .forbidden) := by
  refine ⟨?_, ?_, ?_⟩
  · intro hsh heta
    simp [fetch_task_checks, hsh, heta]
  · intro w hpass hw hfind
    subst hw
    rcases hpass with h | h <;> simp [fetch_task_checks, h, hfind]
  · intro w worker hpass hw hfind hstatus
    subst hw
    rcases hpass with h | h <;> simp [fetch_task_checks, h, hfind, hstatus]

theorem fetch_validation_order_amended_witness :
    fetch_task_checks "q1" (some "w1") none false [] = .error .badRequest ∧
    fetch_task_checks "q1" (some "w9") (some 60) false [worker1] = .error .notFound ∧
    fetch_task_checks "q1" (some "w2") (some 60) false [worker1, worker2] = .error .forbidden :=
  ⟨(fetch_validation_order_amended "q1" (some "w1") none false []).1 rfl rfl,
   (fetch_validation_order_amended "q1" (some "w9") (some 60) false [worker1]).2.1
     "w9" (Or.inr (by decide)) rfl (by decide),
   (fetch_validation_order_amended "q1" (some "w2") (some 60) false [worker1, worker2]).2.2
     "w2" worker2 (Or.inr (by decide)) rfl (by decide) (by decide)⟩

/-- Claim C7: when the processing of one timed-out task raises,
`handle_timeouts` continues with the remaining tasks instead of aborting the
sweep (the state and the accumulated ids are unchanged by the failed task),
and it returns exactly the list of task ids whose database update actually
applied — the update flag being true exactly when the collection was
modified. -/
theorem handle_timeouts_continues_and_returns_applied_ids (now : Int) :
    (∀ (t : Task) (rest ts : List Task) (ws : List Worker) (acc : List String) (e : Err),
      sweepTaskStep now t ts ws = .error e →
        sweepLoopAcc now (t :: rest) ts ws acc = sweepLoopAcc now rest ts ws acc) ∧
    (∀ (ts : List Task) (ws : List Worker),
      (handle_timeouts now ts ws).1 = sweepAppliedIds now (sweepSelected now ts) ts ws) ∧
    (∀ (p : Task → Bool) (f : Task → Task) (ts : List Task),
      ((updateFirst p f ts).1 = true ↔ (updateFirst p f ts).2 ≠ ts)) := by
  refine ⟨?_, ?_, fun p f ts => updateFirst_modified_iff p f ts⟩
  · intro t rest ts ws acc e h
    simp [sweepLoopAcc, h]
  · intro ts ws
    unfold handle_timeouts
    rw [sweepLoopAcc_fst]
    simp

theorem handle_timeouts_continues_witness :
    sweepLoopAcc 9 [runningTask1] [runningTask1] [] [] =
      sweepLoopAcc 9 [] [runningTask1] [] [] :=
  (handle_timeouts_continues_and_returns_applied_ids 9).1 runningTask1 [] [runningTask1] [] []
    Err.notFound rfl

/-- Claim C9: a task fetched with start_heartbeat = false gets
last_heartbeat = null and its (truthy, hence present) eta_max recorded as
task_timeout; the sweeper's heartbeat branch never matches it, so right
after the fetch it can only be timed out by the task_timeout branch — and
the fetch prelude guarantees a truthy eta_max whenever start_heartbeat is
false. -/
theorem fetch_no_heartbeat_times_out_only_by_task_timeout
    (now : Int) (wid : Option String) (tau : ℚ) (htau : tau ≠ 0) (hb : Option ℚ) (t : Task) :
    (∀ (qid : String) (w : Option String) (eta : Option ℚ) (ws : List Worker),
      fetch_task_checks qid w eta false ws ≠ .error .badRequest → truthy eta = true) ∧
    (fetchUpdate now wid false (some tau) hb t).last_heartbeat = none ∧
    (fetchUpdate now wid false (some tau) hb t).task_timeout = some tau ∧
    (∀ now2 : Int,
      heartbeatTimedOut now2 (fetchUpdate now wid false (some tau) hb t) = false) ∧
    (∀ now2 : Int,
      timedOutQuery now2 (fetchUpdate now wid false (some tau) hb t) = true ↔
        ((now2 : ℚ) - (now : ℚ)) / 1000 > tau) := by
  have htt : truthy (some tau) = true := by simp [truthy, htau]
  refine ⟨?_, ?_, ?_, ?_, ?_⟩
  · intro qid w eta ws h
    by_cases he : truthy eta
    · exact he
    · exact absurd (by simp [fetch_task_checks, he]) h
  · by_cases hh : truthy hb <;> simp [fetchUpdate, htt, hh]
  · by_cases hh : truthy hb <;> simp [fetchUpdate, htt, hh]
  · intro now2
    by_cases hh : truthy hb <;> simp [heartbeatTimedOut, fetchUpdate, htt, hh]
  · intro now2
    by_cases hh : truthy hb <;>
      simp [timedOutQuery, heartbeatTimedOut, executionTimedOut, fetchUpdate, htt, hh]

theorem fetch_no_heartbeat_witness :
    (7 : ℚ) ≠ 0 ∧
    (fetchUpdate 5 (some "w1") false (some 7) none task1).last_heartbeat = none ∧
    (fetchUpdate 5 (some "w1") false (some 7) none task1).task_timeout = some 7 :=
  ⟨by decide,
   (fetch_no_heartbeat_times_out_only_by_task_timeout 5 (some "w1") 7 (by decide)
     none task1).2.1,
   (fetch_no_heartbeat_times_out_only_by_task_timeout 5 (some "w1") 7 (by decide)
     none task1).2.2.1⟩

/-- Claim C10: renaming an existing queue to its own current name fails with
BadRequest: the uniqueness pre-check of `update_queue` looks the new name up
globally and matches the queue being updated itself, so a no-op self-rename
is rejected. -/
theorem update_queue_self_rename_bad_request (now : Int) (hash : String → String)
    (qs : List Queue) (q : Queue) (hq : q ∈ qs) (hname : q.queue_name ≠ "") :
    update_queue now hash q.id (some q.queue_name) none [] qs = .error .badRequest := by
  have h1 : strTruthy (some q.queue_name) = true := by simp [strTruthy, hname]
  have h2 : (get_queue_by_name q.queue_name qs).isSome = true := by
    rw [get_queue_by_name, List.find?_isSome]
    exact ⟨q, hq, by simp⟩
  simp [update_queue, h1, h2, Option.isSome_iff_ne_none.mp h2]

theorem update_queue_self_rename_bad_request_witness :
    queue1 ∈ [queue1] ∧ queue1.queue_name ≠ "" ∧
    update_queue 3 id "q1" (some "main") none [] [queue1] = .error .badRequest :=
  ⟨by decide, by decide,
   update_queue_self_rename_bad_request 3 id [queue1] queue1 (by decide) (by decide)⟩

end Labtasker
